import Mathlib

/-!
Verification of the FS25 Engine and Transmission Config Tool
(file fs25_config_tool.py) against its natural-language specification.

The computational core of the program consists of three pure pieces:
a torque-curve generator, a gear-ratio calculator, and an XML emitter.
We embed them shallowly:

* the gear-ratio calculator works on Python ints and floats whose values
  are exact decimals throughout the claims; we model it over the rationals,
  with Python round-to-3-decimals modelled as integer rounding scaled by 1000;
* the torque-curve generator uses fractional powers, so it is modelled over
  the reals with Real.rpow;
* fallible operations (Python raise ValueError) are modelled with Except;
* the XML documents are modelled structurally: a record holding exactly the
  attributes and child elements the string template emits.
-/

namespace FS25

/-- Python round(x, 3) modelled over the rationals: round to the nearest
integer multiple of 1/1000, ties to even (the rule Python uses on the exact
value a tie sits on). -/
def round3 (x : ℚ) : ℚ :=
  let y := x * 1000
  let n : ℤ :=
    if y - ⌊y⌋ = 1 / 2 then (if ⌊y⌋ % 2 = 0 then ⌊y⌋ else ⌊y⌋ + 1)
    else if y - ⌊y⌋ < 1 / 2 then ⌊y⌋ else ⌊y⌋ + 1
  (n : ℚ) / 1000

/-- The unrounded, unboosted forward gear value of gear index i, as computed
by the if/elif chain in GearRatioCalculator.calculate_gear_ratios
(fs25_config_tool.py lines 201-233). Indices are 0-based; the function is
only ever applied with i strictly below the forward gear count. -/
def baseGear (transmission_type : String) (num_forward : ℕ) (i : ℕ) : ℚ :=
  if transmission_type = "CVT" then
    if num_forward = 1 then 4.2
    else 4.2 - (3.0 * i / (num_forward - 1))
  else if transmission_type = "Automatic" then
    if num_forward = 1 then 4.5
    else 4.5 - (3.2 * i / (num_forward - 1))
  else if transmission_type = "PowerShift" then
    if num_forward = 1 then 4.8
    else 4.8 - (3.5 * i / (num_forward - 1))
  else
    if num_forward = 1 then 4.784
    else if num_forward = 6 then
      List.getD [4.784, 2.423, 1.443, 1.000, 0.826, 0.643] i
        (4.0 - (3.0 * i / (num_forward - 1)))
    else if num_forward = 7 then
      List.getD [5.0, 2.8, 1.8, 1.2, 1.000, 0.8, 0.6] i
        (4.0 - (3.0 * i / (num_forward - 1)))
    else
      4.8 - (3.5 * i / (num_forward - 1))

/-- The forward-ratio loop of calculate_gear_ratios (lines 201-240): for each
gear index i below n, take the base value, multiply it by the boost factor
1 + boost/100 when low gearing is enabled and i < n * 0.25, and round the
result to 3 decimals. -/
def forwardRatios (transmission_type : String) (n : ℕ) (enable_low_gearing : Bool)
    (low_gear_boost : ℚ) : List ℚ :=
  (List.range n).map (fun i =>
    let r0 := baseGear transmission_type n i
    let r1 := if enable_low_gearing ∧ (i : ℚ) < (n : ℚ) * 0.25
      then r0 * (1.0 + low_gear_boost / 100.0) else r0
    round3 r1)

/-- The reverse-ratio loop of calculate_gear_ratios (lines 243-245): ratio i
is forward[0] * (1.2 + i * 0.3), rounded to 3 decimals. The forward list is
never empty when this runs (num_forward was validated positive). -/
def reverseRatios (forward : List ℚ) (m : ℕ) : List ℚ :=
  (List.range m).map (fun i : ℕ =>
    round3 (forward.headD 0 * (1.2 + (i : ℚ) * 0.3)))

/-- GearRatioCalculator.calculate_gear_ratios (fs25_config_tool.py lines
169-250). Validates the inputs, then builds the forward ratios and the
reverse ratios, returning (forward, reverse) on success. Gear counts are
Python ints, modelled as integers; under the validation num_forward > 0 and
num_reverse >= 0 the toNat casts used for the loop ranges agree with them. -/
def calculate_gear_ratios (transmission_type : String) (num_forward : ℤ)
    (num_reverse : ℤ) (top_speed : ℚ) (enable_low_gearing : Bool)
    (low_gear_boost : ℚ) : Except String (List ℚ × List ℚ) :=
  if num_forward ≤ 0 then
    .error "Number of forward gears must be greater than 0"
  else if num_reverse < 0 then
    .error "Number of reverse gears cannot be negative"
  else if top_speed ≤ 0 then
    .error "Top speed must be greater than 0"
  else
    let forward := forwardRatios transmission_type num_forward.toNat
      enable_low_gearing low_gear_boost
    let reverse := reverseRatios forward num_reverse.toNat
    .ok (forward, reverse)

/-- Peak RPM (fs25_config_tool.py line 117): approximately 65 percent of the
way from min RPM to max RPM. -/
noncomputable def peak_rpm (min_rpm max_rpm : ℝ) : ℝ :=
  min_rpm + (max_rpm - min_rpm) * 0.65

/-- Base torque (line 124): hp * 9549 / peak RPM. -/
noncomputable def base_torque (hp peak : ℝ) : ℝ := hp * 9549 / peak

/-- The per-sample shape factor of the torque curve (lines 134-152).
Turbocharged engines use a softened threshold at 0.8 * peak with rise
exponent 0.7, decline exponent 0.5 and floor 0.7; naturally aspirated
engines use the peak itself with exponents 0.8 and 0.3 and floor 0.5.
Python float powers are modelled with the real power function. -/
noncomputable def torqueFactor (turbocharged : Bool) (peak max_rpm rpm : ℝ) : ℝ :=
  if turbocharged then
    if rpm < peak * 0.8 then
      (rpm / (peak * 0.8)) ^ (0.7 : ℝ)
    else
      max 0.7 (1.0 - ((rpm - peak * 0.8) / (max_rpm - peak * 0.8)) ^ (0.5 : ℝ))
  else
    if rpm < peak then
      (rpm / peak) ^ (0.8 : ℝ)
    else
      max 0.5 (1.0 - ((rpm - peak) / (max_rpm - peak)) ^ (0.3 : ℝ))

/-- TorqueCurveGenerator.generate_torque_curve (fs25_config_tool.py lines
93-160). Validates the inputs, samples 10 RPM values evenly from min RPM to
max RPM inclusive, and pairs each normalized RPM (rpm / max RPM) with
base torque times the shape factor. Python ValueError is modelled as an
Except error carrying the message. -/
noncomputable def generate_torque_curve (hp min_rpm max_rpm : ℝ)
    (turbocharged : Bool) : Except String (List (ℝ × ℝ)) :=
  if hp ≤ 0 then
    .error "Horsepower must be greater than 0"
  else if min_rpm < 0 then
    .error "Minimum RPM cannot be negative"
  else if max_rpm ≤ min_rpm then
    .error "Maximum RPM must be greater than minimum RPM"
  else if peak_rpm min_rpm max_rpm ≤ 0 then
    .error "Peak RPM calculation resulted in zero or negative value"
  else
    let rpm_points := (List.range 10).map
      (fun i : ℕ => min_rpm + (max_rpm - min_rpm) * ((i : ℝ) / 9.0))
    .ok (rpm_points.map (fun rpm =>
      (rpm / max_rpm,
       base_torque hp (peak_rpm min_rpm max_rpm) *
         torqueFactor turbocharged (peak_rpm min_rpm max_rpm) max_rpm rpm)))

/-- Python max over a list of floats; all uses in the program are on
nonempty lists. -/
def listMax : List ℝ → ℝ
  | [] => 0
  | [x] => x
  | x :: y :: xs => max x (listMax (y :: xs))

/-- The re-scaling loop shared by generate_engine_xml (lines 326-331) and
generate_combined_fs25_xml (lines 423-428): each point becomes
(normalized RPM * max RPM, torque / maximum torque of the curve). -/
noncomputable def rescaleTorqueCurve (curve : List (ℝ × ℝ)) (max_rpm : ℝ) :
    List (ℝ × ℝ) :=
  curve.map (fun p => (p.1 * max_rpm, p.2 / listMax (curve.map Prod.snd)))

/-- The engine_data dictionary handed to the XML generators: the validated
numeric form fields plus name and turbo flag. -/
structure EngineData where
  name : String
  cost : ℝ
  horsepower : ℝ
  min_rpm : ℝ
  max_rpm : ℝ
  fuel_usage_scale : ℝ
  turbocharged : Bool

/-- The transmission_data dictionary handed to the XML generators. The dict
key named type is called ttype here because type is reserved in Lean. -/
structure TransmissionData where
  name : String
  cost : ℝ
  ttype : String
  top_speed : ℚ
  num_forward : ℤ
  num_reverse : ℤ
  enable_low_gearing : Bool
  low_gear_boost : ℚ

/-- The transmission child element of a motorConfiguration, as emitted by
the string templates (lines 384-394 and 456-467): the two timing
attributes, the name, and the gear lists (backward gears listed before
forward gears, each carrying a 3-decimal ratio). -/
structure TransmissionElem where
  autoGearChangeTime : String
  gearChangeTime : String
  name : String
  backwardGears : List ℚ
  forwardGears : List ℚ

/-- Structural model of the emitted XML document: one motorConfiguration
with its motor attributes, its torque child elements (actual RPM paired
with torque scale), and an optional transmission element. -/
structure MotorConfigXML where
  name : String
  hp : ℝ
  price : ℝ
  torqueScaleAttr : ℝ
  minRpm : ℝ
  maxRpm : ℝ
  maxForwardSpeed : ℝ
  maxBackwardSpeed : ℝ
  torques : List (ℝ × ℝ)
  transmissionElem : Option TransmissionElem

/-- XMLGenerator.generate_engine_xml (fs25_config_tool.py lines 307-347):
generates the torque curve (propagating its error, before any part of the
document is built), re-scales it, and emits the motor element with the
hardcoded attribute maxForwardSpeed 120 and maxBackwardSpeed 22. -/
noncomputable def generate_engine_xml (e : EngineData) :
    Except String MotorConfigXML := do
  let curve ← generate_torque_curve e.horsepower e.min_rpm e.max_rpm e.turbocharged
  pure {
    name := e.name
    hp := e.horsepower
    price := e.cost
    torqueScaleAttr := e.fuel_usage_scale
    minRpm := e.min_rpm
    maxRpm := e.max_rpm
    maxForwardSpeed := 120
    maxBackwardSpeed := 22
    torques := rescaleTorqueCurve curve e.max_rpm
    transmissionElem := none }

/-- XMLGenerator.generate_combined_fs25_xml (fs25_config_tool.py lines
403-474): generates the torque curve and the gear ratios (propagating
errors), and emits one motorConfiguration whose motor attribute
maxForwardSpeed is the transmission top speed, with the transmission
element holding reverse gears before forward gears. -/
noncomputable def generate_combined_fs25_xml (e : EngineData)
    (t : TransmissionData) : Except String MotorConfigXML := do
  let curve ← generate_torque_curve e.horsepower e.min_rpm e.max_rpm e.turbocharged
  let gears ← calculate_gear_ratios t.ttype t.num_forward t.num_reverse
    t.top_speed t.enable_low_gearing t.low_gear_boost
  pure {
    name := e.name ++ " - " ++ t.name
    hp := e.horsepower
    price := e.cost + t.cost
    torqueScaleAttr := e.fuel_usage_scale
    minRpm := e.min_rpm
    maxRpm := e.max_rpm
    maxForwardSpeed := (t.top_speed : ℝ)
    maxBackwardSpeed := 22
    torques := rescaleTorqueCurve curve e.max_rpm
    transmissionElem := some {
      autoGearChangeTime := if t.ttype.toLower = "automatic" then "1" else "0"
      gearChangeTime := "0.3"
      name := t.name
      backwardGears := gears.2
      forwardGears := gears.1 } }

/-- The engine section of the form state: tk string variables (and the
turbocharged boolean variable) that load_current_preset writes into. -/
structure EngineForm where
  name : String
  cost : String
  horsepower : String
  min_rpm : String
  max_rpm : String
  fuel_usage_scale : String
  turbocharged : Bool

/-- The transmission section of the form state. -/
structure TransmissionForm where
  name : String
  cost : String
  ttype : String
  top_speed : String
  num_forward : String
  num_reverse : String
  low_gear_boost : String
  enable_low_gearing : Bool

/-- The whole form state touched by load_current_preset. -/
structure FormState where
  engine : EngineForm
  transmission : TransmissionForm

/-- The engine object of a parsed preset JSON file: each required field is
present (carrying the string the loader would store) or absent. -/
structure EngineJson where
  name : Option String
  cost : Option String
  horsepower : Option String
  min_rpm : Option String
  max_rpm : Option String
  fuel_usage_scale : Option String
  turbocharged : Option Bool

/-- The transmission object of a parsed preset JSON file. -/
structure TransmissionJson where
  name : Option String
  cost : Option String
  ttype : Option String
  top_speed : Option String
  num_forward : Option String
  num_reverse : Option String
  low_gear_boost : Option String
  enable_low_gearing : Option Bool

/-- A parsed preset file: the top-level engine and transmission keys may
each be absent. -/
structure PresetData where
  engine : Option EngineJson
  transmission : Option TransmissionJson

/-- The required-engine-field check of load_current_preset (lines
1978-1981): true when some required field is absent. -/
def engineFieldMissing (e : EngineJson) : Bool :=
  e.name.isNone || e.cost.isNone || e.horsepower.isNone || e.min_rpm.isNone ||
  e.max_rpm.isNone || e.fuel_usage_scale.isNone || e.turbocharged.isNone

/-- The required-transmission-field check of load_current_preset (lines
1999-2002). -/
def transmissionFieldMissing (t : TransmissionJson) : Bool :=
  t.name.isNone || t.cost.isNone || t.ttype.isNone || t.top_speed.isNone ||
  t.num_forward.isNone || t.num_reverse.isNone || t.enable_low_gearing.isNone ||
  t.low_gear_boost.isNone

/-- Outcome of a preset load: success message, or the engine-section or
transmission-section error dialog. -/
inductive LoadResult where
  | success
  | engineError
  | transmissionError
deriving DecidableEq, Repr

/-- The transmission half of load_current_preset (lines 1995-2016): a
present transmission object with a missing required field reports the
error and returns with the state as it stands; otherwise the transmission
form fields are overwritten and success is reported. An absent key skips
the section. -/
def loadTransmissionSection (st : FormState) (p : PresetData) :
    LoadResult × FormState :=
  match p.transmission with
  | none => (.success, st)
  | some tr =>
    if transmissionFieldMissing tr then (.transmissionError, st)
    else (.success, { st with transmission := {
      name := tr.name.getD ""
      cost := tr.cost.getD ""
      ttype := tr.ttype.getD ""
      top_speed := tr.top_speed.getD ""
      num_forward := tr.num_forward.getD ""
      num_reverse := tr.num_reverse.getD ""
      low_gear_boost := tr.low_gear_boost.getD ""
      enable_low_gearing := tr.enable_low_gearing.getD false } })

/-- FS25ConfigTool.load_current_preset (fs25_config_tool.py lines
1963-2018), for a successfully parsed, non-empty preset dictionary: the
engine section is handled first (validate all required fields before
writing any of them; on a missing field report the error and return with
the entire state unchanged), then the transmission section. An absent
top-level key skips its section without any error. -/
def load_current_preset (st : FormState) (p : PresetData) :
    LoadResult × FormState :=
  match p.engine with
  | none => loadTransmissionSection st p
  | some eng =>
    if engineFieldMissing eng then (.engineError, st)
    else loadTransmissionSection
      { st with engine := {
          name := eng.name.getD ""
          cost := eng.cost.getD ""
          horsepower := eng.horsepower.getD ""
          min_rpm := eng.min_rpm.getD ""
          max_rpm := eng.max_rpm.getD ""
          fuel_usage_scale := eng.fuel_usage_scale.getD ""
          turbocharged := eng.turbocharged.getD false } } p

end FS25
namespace FS25

lemma headD_eq_getD (l : List ℚ) : l.headD 0 = l.getD 0 0 := by
  cases l <;> rfl

lemma getD_map_range {α : Type} (f : ℕ → α) (d : α) {n i : ℕ} (h : i < n) :
    ((List.range n).map f).getD i d = f i := by
  rw [List.getD_eq_getElem _ _ (by simpa using h), List.getElem_map,
    List.getElem_range]

lemma round3_thousandth (x : ℚ) : ∃ k : ℤ, round3 x = (k : ℚ) / 1000 :=
  ⟨_, rfl⟩

lemma calculate_gear_ratios_ok (ty : String) (nf nr : ℤ) (ts : ℚ) (lg : Bool)
    (b : ℚ) (hnf : 0 < nf) (hnr : 0 ≤ nr) (hts : 0 < ts) :
    calculate_gear_ratios ty nf nr ts lg b =
      .ok (forwardRatios ty nf.toNat lg b,
           reverseRatios (forwardRatios ty nf.toNat lg b) nr.toNat) := by
  unfold calculate_gear_ratios
  rw [if_neg (not_le.mpr hnf), if_neg (not_lt.mpr hnr), if_neg (not_le.mpr hts)]

lemma toNat_cast_q {n : ℤ} (h : 0 ≤ n) : ((n.toNat : ℕ) : ℚ) = (n : ℚ) := by
  exact_mod_cast Int.toNat_of_nonneg h

lemma baseGear_manual (n i : ℕ) :
    baseGear "Manual" n i =
      if n = 1 then 4.784
      else if n = 6 then
        List.getD [4.784, 2.423, 1.443, 1.000, 0.826, 0.643] i
          (4.0 - (3.0 * (i : ℚ) / ((n : ℚ) - 1)))
      else if n = 7 then
        List.getD [5.0, 2.8, 1.8, 1.2, 1.000, 0.8, 0.6] i
          (4.0 - (3.0 * (i : ℚ) / ((n : ℚ) - 1)))
      else 4.8 - (3.5 * (i : ℚ) / ((n : ℚ) - 1)) := by
  unfold baseGear
  rw [if_neg (by decide), if_neg (by decide), if_neg (by decide)]

lemma forwardRatios_no_boost (ty : String) (n : ℕ) (b : ℚ) :
    forwardRatios ty n false b =
      (List.range n).map (fun i => round3 (baseGear ty n i)) := by
  simp [forwardRatios]

/-- C3: for every transmission type and valid counts, the calculator returns
exactly num_forward forward ratios and num_reverse reverse ratios, every
value an integer multiple of 1/1000, and reverse ratio i equals
forward[0] * (1.2 + 0.3 * i) rounded to 3 decimals. -/
theorem gear_table_shape (ty : String) (nf nr : ℤ) (ts : ℚ) (lg : Bool) (b : ℚ)
    (hnf : 0 < nf) (hnr : 0 ≤ nr) (hts : 0 < ts) :
    ∃ fwd rev, calculate_gear_ratios ty nf nr ts lg b = .ok (fwd, rev) ∧
      fwd.length = nf.toNat ∧ rev.length = nr.toNat ∧
      (∀ v ∈ fwd, ∃ k : ℤ, v = (k : ℚ) / 1000) ∧
      (∀ v ∈ rev, ∃ k : ℤ, v = (k : ℚ) / 1000) ∧
      (∀ i, i < nr.toNat →
        rev.getD i 0 = round3 (fwd.getD 0 0 * (1.2 + (i : ℚ) * 0.3))) := by
  refine ⟨_, _, calculate_gear_ratios_ok ty nf nr ts lg b hnf hnr hts,
    ?_, ?_, ?_, ?_, ?_⟩
  · simp [forwardRatios]
  · simp [reverseRatios]
  · intro v hv
    simp only [forwardRatios, List.mem_map, List.mem_range] at hv
    obtain ⟨i, _, rfl⟩ := hv
    exact round3_thousandth _
  · intro v hv
    simp only [reverseRatios, List.mem_map, List.mem_range] at hv
    obtain ⟨i, _, rfl⟩ := hv
    exact round3_thousandth _
  · intro i hi
    unfold reverseRatios
    rw [getD_map_range _ _ hi, headD_eq_getD]

theorem gear_table_shape_witness :
    (0 : ℤ) < 6 ∧ (0 : ℤ) ≤ 2 ∧ (0 : ℚ) < 40 ∧
    (∃ fwd rev, calculate_gear_ratios "Manual" 6 2 40 false 25 = .ok (fwd, rev) ∧
      fwd.length = (6 : ℤ).toNat ∧ rev.length = (2 : ℤ).toNat ∧
      (∀ v ∈ fwd, ∃ k : ℤ, v = (k : ℚ) / 1000) ∧
      (∀ v ∈ rev, ∃ k : ℤ, v = (k : ℚ) / 1000) ∧
      (∀ i, i < (2 : ℤ).toNat →
        rev.getD i 0 = round3 (fwd.getD 0 0 * (1.2 + (i : ℚ) * 0.3)))) :=
  ⟨by decide, by decide, by norm_num,
    gear_table_shape "Manual" 6 2 40 false 25 (by decide) (by decide) (by norm_num)⟩

/-- C4: Manual, 6 forward gears, low gearing disabled. -/
theorem manual_six_forward_table (nr : ℤ) (ts b : ℚ) (hnr : 0 ≤ nr)
    (hts : 0 < ts) :
    ∃ rev, calculate_gear_ratios "Manual" 6 nr ts false b =
      .ok ([4.784, 2.423, 1.443, 1, 0.826, 0.643], rev) := by
  have h := calculate_gear_ratios_ok "Manual" 6 nr ts false b (by decide) hnr hts
  have hf : forwardRatios "Manual" (6 : ℤ).toNat false b =
      [4.784, 2.423, 1.443, 1, 0.826, 0.643] := by
    show forwardRatios "Manual" 6 false b = _
    rw [forwardRatios_no_boost, show List.range 6 = [0, 1, 2, 3, 4, 5] from rfl]
    simp only [List.map_cons, List.map_nil, List.cons.injEq, and_true]
    norm_num [baseGear_manual, round3]
  rw [hf] at h
  exact ⟨_, h⟩

theorem manual_six_forward_table_witness :
    (0 : ℤ) ≤ 0 ∧ (0 : ℚ) < 40 ∧
    ∃ rev, calculate_gear_ratios "Manual" 6 0 40 false 25 =
      .ok ([4.784, 2.423, 1.443, 1, 0.826, 0.643], rev) :=
  ⟨by decide, by norm_num,
    manual_six_forward_table 0 40 25 (by decide) (by norm_num)⟩

/-- C5 counterexample: with 6 forward gears and low gearing enabled, the code
boosts two gears, not floor(6 * 0.25) = 1 of them: gear index 1 comes out as
4.846, not its unboosted value 2.423. -/
theorem low_gear_floor_counterexample :
    calculate_gear_ratios "Manual" 6 0 40 true 100 =
      .ok ([9.568, 4.846, 1.443, 1, 0.826, 0.643], []) ∧
    ⌊(6 : ℚ) * 0.25⌋ = 1 ∧
    round3 (baseGear "Manual" 6 1) = 2.423 ∧ (4.846 : ℚ) ≠ 2.423 := by
  refine ⟨?_, by norm_num, by norm_num [baseGear_manual, round3], by norm_num⟩
  rw [calculate_gear_ratios_ok _ _ _ _ _ _ (by decide) (by decide) (by norm_num),
    show ((6 : ℤ).toNat) = 6 from rfl, show ((0 : ℤ).toNat) = 0 from rfl]
  rw [forwardRatios, show List.range 6 = [0, 1, 2, 3, 4, 5] from rfl]
  simp only [List.map_cons, List.map_nil]
  norm_num [baseGear_manual, round3, reverseRatios]

/-- C10: the gear ratio output does not depend on the top speed. -/
theorem gear_ratios_top_speed_independent (ty : String) (nf nr : ℤ)
    (t1 t2 : ℚ) (lg : Bool) (b : ℚ) (h1 : 0 < t1) (h2 : 0 < t2) :
    calculate_gear_ratios ty nf nr t1 lg b =
      calculate_gear_ratios ty nf nr t2 lg b := by
  unfold calculate_gear_ratios
  rw [if_neg (not_le.mpr h1), if_neg (not_le.mpr h2)]

theorem gear_ratios_top_speed_independent_witness :
    (0 : ℚ) < 40 ∧ (0 : ℚ) < 80 ∧
    calculate_gear_ratios "Manual" 6 2 40 false 25 =
      calculate_gear_ratios "Manual" 6 2 80 false 25 :=
  ⟨by norm_num, by norm_num,
    gear_ratios_top_speed_independent "Manual" 6 2 40 80 false 25
      (by norm_num) (by norm_num)⟩

end FS25
namespace FS25

/-- C5 amended: with low gearing enabled, exactly the gears with index
i < num_forward * 0.25 (the lowest ceil(N/4) gears) are boosted. -/
theorem low_gear_boost_quarter (ty : String) (nf nr : ℤ) (ts b : ℚ)
    (hnf : 0 < nf) (hnr : 0 ≤ nr) (hts : 0 < ts) :
    ∃ fwd rev, calculate_gear_ratios ty nf nr ts true b = .ok (fwd, rev) ∧
      (∀ i, i < nf.toNat →
        fwd.getD i 0 = if (i : ℚ) < (nf : ℚ) * 0.25
          then round3 (baseGear ty nf.toNat i * (1.0 + b / 100.0))
          else round3 (baseGear ty nf.toNat i)) ∧
      (∀ i : ℕ, ((i : ℚ) < (nf : ℚ) * 0.25 ↔ (i : ℤ) < ⌈(nf : ℚ) * 0.25⌉)) := by
  have hcast : ((nf.toNat : ℕ) : ℚ) = (nf : ℚ) := toNat_cast_q hnf.le
  refine ⟨_, _, calculate_gear_ratios_ok ty nf nr ts true b hnf hnr hts, ?_, ?_⟩
  · intro i hi
    unfold forwardRatios
    rw [getD_map_range _ _ hi]
    show round3 (if (true : Bool) ∧ (i : ℚ) < ((nf.toNat : ℕ) : ℚ) * 0.25
      then baseGear ty nf.toNat i * (1.0 + b / 100.0)
      else baseGear ty nf.toNat i) = _
    by_cases hc : (i : ℚ) < (nf : ℚ) * 0.25
    · rw [if_pos ⟨rfl, by rwa [hcast]⟩, if_pos hc]
    · rw [if_neg (fun h => hc (hcast ▸ h.2)), if_neg hc]
  · intro i
    rw [Int.lt_ceil]
    constructor <;> intro h <;> exact_mod_cast h

theorem low_gear_boost_quarter_witness :
    (0 : ℤ) < 6 ∧ (0 : ℤ) ≤ 0 ∧ (0 : ℚ) < 40 ∧
    ∃ fwd rev, calculate_gear_ratios "Manual" 6 0 40 true 100 = .ok (fwd, rev) ∧
      (∀ i, i < (6 : ℤ).toNat →
        fwd.getD i 0 = if (i : ℚ) < ((6 : ℤ) : ℚ) * 0.25
          then round3 (baseGear "Manual" (6 : ℤ).toNat i * (1.0 + 100 / 100.0))
          else round3 (baseGear "Manual" (6 : ℤ).toNat i)) ∧
      (∀ i : ℕ, ((i : ℚ) < ((6 : ℤ) : ℚ) * 0.25 ↔
        (i : ℤ) < ⌈((6 : ℤ) : ℚ) * 0.25⌉)) :=
  ⟨by decide, by decide, by norm_num,
    low_gear_boost_quarter "Manual" 6 0 40 100 (by decide) (by decide) (by norm_num)⟩

/-- C6 counterexample: a single-gear Manual transmission gets ratio 4.784,
not the generic ramp value. -/
theorem manual_ramp_single_gear_counterexample :
    calculate_gear_ratios "Manual" 1 0 40 false 25 = .ok ([4.784], []) ∧
    (4.784 : ℚ) ≠ 4.8 - 3.5 * 0 / ((1 : ℚ) - 1) := by
  constructor
  · rw [calculate_gear_ratios_ok _ _ _ _ _ _ (by decide) (by decide) (by norm_num),
      show ((1 : ℤ).toNat) = 1 from rfl, show ((0 : ℤ).toNat) = 0 from rfl]
    rw [forwardRatios_no_boost, show List.range 1 = [0] from rfl]
    simp only [List.map_cons, List.map_nil]
    norm_num [baseGear_manual, round3, reverseRatios]
  · norm_num

/-- C6 amended: for Manual with at least 2 forward gears, other than 6 and 7,
each base ratio is the 4.8 to 1.3 linear ramp. -/
theorem manual_generic_ramp (n nr : ℤ) (ts b : ℚ) (h2 : 2 ≤ n) (h6 : n ≠ 6)
    (h7 : n ≠ 7) (hnr : 0 ≤ nr) (hts : 0 < ts) :
    ∃ fwd rev, calculate_gear_ratios "Manual" n nr ts false b = .ok (fwd, rev) ∧
      (∀ i, i < n.toNat →
        baseGear "Manual" n.toNat i = 4.8 - 3.5 * (i : ℚ) / ((n : ℚ) - 1) ∧
        fwd.getD i 0 = round3 (4.8 - 3.5 * (i : ℚ) / ((n : ℚ) - 1))) ∧
      baseGear "Manual" n.toNat 0 = 4.8 ∧
      baseGear "Manual" n.toNat (n.toNat - 1) = 1.3 := by
  have hn0 : (0 : ℤ) < n := by omega
  have hne1 : n.toNat ≠ 1 := by omega
  have hne6 : n.toNat ≠ 6 := by omega
  have hne7 : n.toNat ≠ 7 := by omega
  have hcast : ((n.toNat : ℕ) : ℚ) = (n : ℚ) := toNat_cast_q hn0.le
  have hbg : ∀ i : ℕ,
      baseGear "Manual" n.toNat i = 4.8 - 3.5 * (i : ℚ) / ((n : ℚ) - 1) := by
    intro i
    rw [baseGear_manual, if_neg hne1, if_neg hne6, if_neg hne7, hcast]
  have hsub : ((n.toNat - 1 : ℕ) : ℚ) = (n : ℚ) - 1 := by
    rw [Nat.cast_sub (by omega : 1 ≤ n.toNat), hcast, Nat.cast_one]
  have hne : (n : ℚ) - 1 ≠ 0 := by
    have : (2 : ℚ) ≤ (n : ℚ) := by exact_mod_cast h2
    intro hcontra
    nlinarith
  refine ⟨_, _, calculate_gear_ratios_ok "Manual" n nr ts false b hn0 hnr hts,
    ?_, ?_, ?_⟩
  · intro i hi
    refine ⟨hbg i, ?_⟩
    rw [forwardRatios_no_boost, getD_map_range _ _ hi, hbg i]
  · rw [hbg 0]; norm_num
  · rw [hbg (n.toNat - 1), hsub, mul_div_assoc, div_self hne]
    norm_num

theorem manual_generic_ramp_witness :
    (2 : ℤ) ≤ 8 ∧ (8 : ℤ) ≠ 6 ∧ (8 : ℤ) ≠ 7 ∧ (0 : ℤ) ≤ 0 ∧ (0 : ℚ) < 40 ∧
    ∃ fwd rev, calculate_gear_ratios "Manual" 8 0 40 false 25 = .ok (fwd, rev) ∧
      (∀ i, i < (8 : ℤ).toNat →
        baseGear "Manual" (8 : ℤ).toNat i =
          4.8 - 3.5 * (i : ℚ) / (((8 : ℤ) : ℚ) - 1) ∧
        fwd.getD i 0 = round3 (4.8 - 3.5 * (i : ℚ) / (((8 : ℤ) : ℚ) - 1))) ∧
      baseGear "Manual" (8 : ℤ).toNat 0 = 4.8 ∧
      baseGear "Manual" (8 : ℤ).toNat ((8 : ℤ).toNat - 1) = 1.3 :=
  ⟨by decide, by decide, by decide, by decide, by norm_num,
    manual_generic_ramp 8 0 40 25 (by decide) (by decide) (by decide)
      (by decide) (by norm_num)⟩

end FS25
namespace FS25

/-- C9 counterexample: a preset whose top-level engine key is absent loads
with a success report, not a missing-field error. -/
theorem preset_absent_key_counterexample :
    (⟨none, some ⟨some "T2", some "1000", some "CVT", some "50", some "4",
        some "1", some "20", some true⟩⟩ : PresetData).engine = none ∧
    (load_current_preset
      ⟨⟨"E", "0", "100", "600", "2200", "1", false⟩,
       ⟨"T", "0", "Manual", "40", "6", "2", "25", false⟩⟩
      ⟨none, some ⟨some "T2", some "1000", some "CVT", some "50", some "4",
        some "1", some "20", some true⟩⟩).1 = LoadResult.success :=
  ⟨rfl, rfl⟩

/-- C9 amended: a missing required field in a present section reports that
section error and leaves the section unchanged; an absent top-level engine
or transmission key silently skips its section: that section of the form is
left unchanged and no error of that section is reported. -/
theorem preset_missing_field_handling (st : FormState) (p : PresetData) :
    (∀ eng, p.engine = some eng → engineFieldMissing eng = true →
      load_current_preset st p = (.engineError, st)) ∧
    (∀ tr, p.transmission = some tr → transmissionFieldMissing tr = true →
      (load_current_preset st p).1 ≠ .success ∧
      ((load_current_preset st p).2).transmission = st.transmission) ∧
    (p.engine = none → ((load_current_preset st p).2).engine = st.engine ∧
      (load_current_preset st p).1 ≠ .engineError) ∧
    (p.transmission = none →
      ((load_current_preset st p).2).transmission = st.transmission ∧
      (load_current_preset st p).1 ≠ .transmissionError) := by
  obtain ⟨pe, pt⟩ := p
  refine ⟨?_, ?_, ?_, ?_⟩
  · rintro eng rfl hmiss
    simp [load_current_preset, hmiss]
  · rintro tr rfl hmiss
    cases pe with
    | none =>
      simp [load_current_preset, loadTransmissionSection, hmiss]
    | some eng =>
      by_cases he : engineFieldMissing eng
      · simp [load_current_preset, loadTransmissionSection, he, hmiss]
      · simp [load_current_preset, loadTransmissionSection, he, hmiss]
  · rintro rfl
    cases pt with
    | none =>
      exact ⟨rfl, by simp [load_current_preset, loadTransmissionSection]⟩
    | some tr =>
      by_cases ht : transmissionFieldMissing tr <;>
        simp [load_current_preset, loadTransmissionSection, ht]
  · rintro rfl
    cases pe with
    | none =>
      exact ⟨rfl, by simp [load_current_preset, loadTransmissionSection]⟩
    | some eng =>
      by_cases he : engineFieldMissing eng <;>
        simp [load_current_preset, loadTransmissionSection, he]

theorem preset_missing_field_handling_witness :
    load_current_preset
      ⟨⟨"E", "0", "100", "600", "2200", "1", false⟩,
       ⟨"T", "0", "Manual", "40", "6", "2", "25", false⟩⟩
      ⟨some ⟨some "E2", none, some "150", some "700", some "2400", some "1",
        some false⟩, none⟩ =
      (LoadResult.engineError,
       ⟨⟨"E", "0", "100", "600", "2200", "1", false⟩,
        ⟨"T", "0", "Manual", "40", "6", "2", "25", false⟩⟩) :=
  (preset_missing_field_handling _ _).1 _ rfl rfl

end FS25
namespace FS25

lemma peak_rpm_pos {min_rpm max_rpm : ℝ} (hmin : 0 ≤ min_rpm)
    (hlt : min_rpm < max_rpm) : 0 < peak_rpm min_rpm max_rpm := by
  unfold peak_rpm
  nlinarith

lemma peak_rpm_le {min_rpm max_rpm : ℝ}
    (hlt : min_rpm < max_rpm) : peak_rpm min_rpm max_rpm ≤ max_rpm := by
  unfold peak_rpm
  nlinarith

lemma generate_torque_curve_ok (hp min_rpm max_rpm : ℝ) (turbo : Bool)
    (hhp : 0 < hp) (hmin : 0 ≤ min_rpm) (hlt : min_rpm < max_rpm) :
    generate_torque_curve hp min_rpm max_rpm turbo =
      .ok ((List.range 10).map (fun i : ℕ =>
        ((min_rpm + (max_rpm - min_rpm) * ((i : ℝ) / 9.0)) / max_rpm,
         base_torque hp (peak_rpm min_rpm max_rpm) *
           torqueFactor turbo (peak_rpm min_rpm max_rpm) max_rpm
             (min_rpm + (max_rpm - min_rpm) * ((i : ℝ) / 9.0))))) := by
  unfold generate_torque_curve
  rw [if_neg (not_le.mpr hhp), if_neg (not_lt.mpr hmin), if_neg (not_le.mpr hlt),
    if_neg (not_le.mpr (peak_rpm_pos hmin hlt))]
  simp only [List.map_map]
  rfl

lemma le_listMax {l : List ℝ} {a : ℝ} (h : a ∈ l) : a ≤ listMax l := by
  induction l with
  | nil => cases h
  | cons x xs ih =>
    cases xs with
    | nil =>
      rw [List.mem_singleton] at h
      rw [h]
      exact le_refl _
    | cons y ys =>
      rcases List.mem_cons.mp h with h1 | h2
      · rw [h1]
        exact le_max_left _ _
      · exact le_trans (ih h2) (le_max_right _ _)

lemma listMax_map_div (l : List ℝ) (c : ℝ) (hc : 0 < c) :
    listMax (l.map (fun x => x / c)) = listMax l / c := by
  induction l with
  | nil => simp [listMax]
  | cons x xs ih =>
    cases xs with
    | nil => simp [listMax]
    | cons y ys =>
      show max (x / c) (listMax ((y :: ys).map (fun x => x / c))) =
        max x (listMax (y :: ys)) / c
      rw [ih, max_div_div_right hc.le]

end FS25
namespace FS25

lemma torqueFactor_last {min_rpm max_rpm : ℝ} (turbo : Bool) (hmin : 0 ≤ min_rpm)
    (hlt : min_rpm < max_rpm) :
    (0.5 : ℝ) ≤ torqueFactor turbo (peak_rpm min_rpm max_rpm) max_rpm max_rpm := by
  have hpk := peak_rpm_le hlt
  have hmax0 : 0 < max_rpm := lt_of_le_of_lt hmin hlt
  unfold torqueFactor
  cases turbo with
  | false =>
    rw [if_neg (by norm_num), if_neg (not_lt.mpr hpk)]
    exact le_max_left _ _
  | true =>
    rw [if_pos rfl, if_neg (not_lt.mpr (by nlinarith))]
    exact le_trans (by norm_num) (le_max_left _ _)

lemma base_torque_pos {hp min_rpm max_rpm : ℝ} (hhp : 0 < hp) (hmin : 0 ≤ min_rpm)
    (hlt : min_rpm < max_rpm) : 0 < base_torque hp (peak_rpm min_rpm max_rpm) := by
  unfold base_torque
  exact div_pos (by nlinarith) (peak_rpm_pos hmin hlt)

end FS25
namespace FS25

lemma listMax_rescaled (curve : List (ℝ × ℝ)) (max_rpm : ℝ)
    (hpos : 0 < listMax (curve.map Prod.snd)) :
    listMax ((rescaleTorqueCurve curve max_rpm).map Prod.snd) = 1 := by
  unfold rescaleTorqueCurve
  rw [List.map_map]
  have h1 : (Prod.snd ∘ fun p : ℝ × ℝ =>
      (p.1 * max_rpm, p.2 / listMax (curve.map Prod.snd))) =
      ((fun x => x / listMax (curve.map Prod.snd)) ∘ Prod.snd) := rfl
  rw [h1, ← List.map_map, listMax_map_div _ _ hpos, div_self hpos.ne']

lemma generate_engine_xml_ok (e : EngineData) (hhp : 0 < e.horsepower)
    (hmin : 0 ≤ e.min_rpm) (hlt : e.min_rpm < e.max_rpm) :
    generate_engine_xml e = .ok {
      name := e.name
      hp := e.horsepower
      price := e.cost
      torqueScaleAttr := e.fuel_usage_scale
      minRpm := e.min_rpm
      maxRpm := e.max_rpm
      maxForwardSpeed := 120
      maxBackwardSpeed := 22
      torques := rescaleTorqueCurve ((List.range 10).map (fun i : ℕ =>
        ((e.min_rpm + (e.max_rpm - e.min_rpm) * ((i : ℝ) / 9.0)) / e.max_rpm,
         base_torque e.horsepower (peak_rpm e.min_rpm e.max_rpm) *
           torqueFactor e.turbocharged (peak_rpm e.min_rpm e.max_rpm) e.max_rpm
             (e.min_rpm + (e.max_rpm - e.min_rpm) * ((i : ℝ) / 9.0))))) e.max_rpm
      transmissionElem := none } := by
  unfold generate_engine_xml
  rw [generate_torque_curve_ok _ _ _ _ hhp hmin hlt]
  rfl

lemma listMax_curve_pos (hp min_rpm max_rpm : ℝ) (turbo : Bool)
    (hhp : 0 < hp) (hmin : 0 ≤ min_rpm) (hlt : min_rpm < max_rpm) :
    0 < listMax (((List.range 10).map (fun i : ℕ =>
      ((min_rpm + (max_rpm - min_rpm) * ((i : ℝ) / 9.0)) / max_rpm,
       base_torque hp (peak_rpm min_rpm max_rpm) *
         torqueFactor turbo (peak_rpm min_rpm max_rpm) max_rpm
           (min_rpm + (max_rpm - min_rpm) * ((i : ℝ) / 9.0))))).map Prod.snd) := by
  have h9 : min_rpm + (max_rpm - min_rpm) * (((9 : ℕ) : ℝ) / 9.0) = max_rpm := by
    norm_num
  have hmem : base_torque hp (peak_rpm min_rpm max_rpm) *
      torqueFactor turbo (peak_rpm min_rpm max_rpm) max_rpm
        (min_rpm + (max_rpm - min_rpm) * (((9 : ℕ) : ℝ) / 9.0)) ∈
      ((List.range 10).map (fun i : ℕ =>
        ((min_rpm + (max_rpm - min_rpm) * ((i : ℝ) / 9.0)) / max_rpm,
         base_torque hp (peak_rpm min_rpm max_rpm) *
           torqueFactor turbo (peak_rpm min_rpm max_rpm) max_rpm
             (min_rpm + (max_rpm - min_rpm) * ((i : ℝ) / 9.0))))).map Prod.snd := by
    rw [List.map_map]
    exact List.mem_map_of_mem _ (by decide)
  rw [h9] at hmem
  exact lt_of_lt_of_le
    (mul_pos (base_torque_pos hhp hmin hlt)
      (lt_of_lt_of_le (by norm_num) (torqueFactor_last turbo hmin hlt)))
    (le_listMax hmem)

end FS25
namespace FS25

/-- C1: the curve has 10 points, normalized RPM is non-decreasing from
min/max to 1, and after the emitter rescales by the curve maximum the
largest torque scale is exactly 1. -/
theorem torque_curve_shape (e : EngineData) (hhp : 0 < e.horsepower)
    (hmin : 0 ≤ e.min_rpm) (hlt : e.min_rpm < e.max_rpm) :
    ∃ curve doc,
      generate_torque_curve e.horsepower e.min_rpm e.max_rpm e.turbocharged =
        .ok curve ∧
      generate_engine_xml e = .ok doc ∧
      curve.length = 10 ∧
      List.Pairwise (· ≤ ·) (curve.map Prod.fst) ∧
      (curve.getD 0 (0, 0)).1 = e.min_rpm / e.max_rpm ∧
      (curve.getD 9 (0, 0)).1 = 1 ∧
      doc.torques = rescaleTorqueCurve curve e.max_rpm ∧
      listMax (doc.torques.map Prod.snd) = 1 := by
  have hmax0 : 0 < e.max_rpm := lt_of_le_of_lt hmin hlt
  refine ⟨_, _, generate_torque_curve_ok _ _ _ _ hhp hmin hlt,
    generate_engine_xml_ok e hhp hmin hlt, ?_, ?_, ?_, ?_, rfl, ?_⟩
  · simp
  · rw [List.map_map]
    refine (List.pairwise_map).mpr
      (List.Pairwise.imp ?_ (List.pairwise_lt_range 10))
    intro a b hab
    show (e.min_rpm + (e.max_rpm - e.min_rpm) * ((a : ℝ) / 9.0)) / e.max_rpm ≤
      (e.min_rpm + (e.max_rpm - e.min_rpm) * ((b : ℝ) / 9.0)) / e.max_rpm
    have hab' : (a : ℝ) ≤ (b : ℝ) := by exact_mod_cast hab.le
    exact (div_le_div_iff_of_pos_right hmax0).mpr (by nlinarith)
  · rw [getD_map_range _ _ (by norm_num : (0 : ℕ) < 10)]
    show (e.min_rpm + (e.max_rpm - e.min_rpm) * (((0 : ℕ) : ℝ) / 9.0)) /
      e.max_rpm = e.min_rpm / e.max_rpm
    norm_num
  · rw [getD_map_range _ _ (by norm_num : (9 : ℕ) < 10)]
    show (e.min_rpm + (e.max_rpm - e.min_rpm) * (((9 : ℕ) : ℝ) / 9.0)) /
      e.max_rpm = 1
    rw [show e.min_rpm + (e.max_rpm - e.min_rpm) * (((9 : ℕ) : ℝ) / 9.0) =
      e.max_rpm by norm_num]
    exact div_self hmax0.ne'
  · exact listMax_rescaled _ _ (listMax_curve_pos _ _ _ _ hhp hmin hlt)

theorem torque_curve_shape_witness :
    (0 : ℝ) < 275 ∧ (0 : ℝ) ≤ 600 ∧ (600 : ℝ) < 3500 ∧
    ∃ curve doc,
      generate_torque_curve 275 600 3500 true = .ok curve ∧
      generate_engine_xml ⟨"7.3 Powerstroke", 8500, 275, 600, 3500, 1.0, true⟩ =
        .ok doc ∧
      curve.length = 10 ∧
      List.Pairwise (· ≤ ·) (curve.map Prod.fst) ∧
      (curve.getD 0 (0, 0)).1 = 600 / 3500 ∧
      (curve.getD 9 (0, 0)).1 = 1 ∧
      doc.torques = rescaleTorqueCurve curve 3500 ∧
      listMax (doc.torques.map Prod.snd) = 1 :=
  ⟨by norm_num, by norm_num, by norm_num,
    torque_curve_shape ⟨"7.3 Powerstroke", 8500, 275, 600, 3500, 1.0, true⟩
      (by norm_num) (by norm_num) (by norm_num)⟩

end FS25
namespace FS25

/-- C2: peak RPM and base torque formulas, and even sampling of 10 RPM
values from min to max inclusive. -/
theorem torque_curve_sampling (hp min_rpm max_rpm : ℝ) (turbo : Bool)
    (hhp : 0 < hp) (hmin : 0 ≤ min_rpm) (hlt : min_rpm < max_rpm) :
    peak_rpm min_rpm max_rpm = min_rpm + (max_rpm - min_rpm) * 0.65 ∧
    base_torque hp (peak_rpm min_rpm max_rpm) =
      hp * 9549 / peak_rpm min_rpm max_rpm ∧
    ∃ curve, generate_torque_curve hp min_rpm max_rpm turbo = .ok curve ∧
      curve.length = 10 ∧
      (∀ i, i < 10 → (curve.getD i (0, 0)).1 * max_rpm =
        min_rpm + (max_rpm - min_rpm) * ((i : ℝ) / 9.0)) ∧
      (∀ i, i < 10 → (curve.getD i (0, 0)).2 =
        base_torque hp (peak_rpm min_rpm max_rpm) *
          torqueFactor turbo (peak_rpm min_rpm max_rpm) max_rpm
            (min_rpm + (max_rpm - min_rpm) * ((i : ℝ) / 9.0))) ∧
      (curve.getD 0 (0, 0)).1 * max_rpm = min_rpm ∧
      (curve.getD 9 (0, 0)).1 * max_rpm = max_rpm := by
  have hmax0 : 0 < max_rpm := lt_of_le_of_lt hmin hlt
  refine ⟨rfl, rfl, _, generate_torque_curve_ok _ _ _ _ hhp hmin hlt,
    ?_, ?_, ?_, ?_, ?_⟩
  · simp
  · intro i hi
    rw [getD_map_range _ _ hi]
    exact div_mul_cancel₀ _ hmax0.ne'
  · intro i hi
    rw [getD_map_range _ _ hi]
  · rw [getD_map_range _ _ (by norm_num : (0 : ℕ) < 10)]
    show (min_rpm + (max_rpm - min_rpm) * (((0 : ℕ) : ℝ) / 9.0)) / max_rpm *
      max_rpm = min_rpm
    rw [div_mul_cancel₀ _ hmax0.ne']
    norm_num
  · rw [getD_map_range _ _ (by norm_num : (9 : ℕ) < 10)]
    show (min_rpm + (max_rpm - min_rpm) * (((9 : ℕ) : ℝ) / 9.0)) / max_rpm *
      max_rpm = max_rpm
    rw [div_mul_cancel₀ _ hmax0.ne']
    norm_num

theorem torque_curve_sampling_witness :
    (0 : ℝ) < 275 ∧ (0 : ℝ) ≤ 600 ∧ (600 : ℝ) < 3500 ∧
    peak_rpm 600 3500 = 2485 ∧
    (peak_rpm 600 3500 = 600 + (3500 - 600) * 0.65 ∧
     base_torque 275 (peak_rpm 600 3500) = 275 * 9549 / peak_rpm 600 3500 ∧
     ∃ curve, generate_torque_curve 275 600 3500 true = .ok curve ∧
      curve.length = 10 ∧
      (∀ i, i < 10 → (curve.getD i (0, 0)).1 * 3500 =
        600 + (3500 - 600) * ((i : ℝ) / 9.0)) ∧
      (∀ i, i < 10 → (curve.getD i (0, 0)).2 =
        base_torque 275 (peak_rpm 600 3500) *
          torqueFactor true (peak_rpm 600 3500) 3500
            (600 + (3500 - 600) * ((i : ℝ) / 9.0))) ∧
      (curve.getD 0 (0, 0)).1 * 3500 = 600 ∧
      (curve.getD 9 (0, 0)).1 * 3500 = 3500) :=
  ⟨by norm_num, by norm_num, by norm_num, by norm_num [peak_rpm],
    torque_curve_sampling 275 600 3500 true
      (by norm_num) (by norm_num) (by norm_num)⟩

/-- C7: invalid inputs make the torque curve generator fail, and the engine
XML generator propagates the failure and produces no document. -/
theorem invalid_input_no_xml (e : EngineData)
    (h : e.max_rpm ≤ e.min_rpm ∨ e.horsepower ≤ 0 ∨ e.min_rpm < 0) :
    (∃ msg, generate_torque_curve e.horsepower e.min_rpm e.max_rpm
      e.turbocharged = .error msg) ∧
    (∃ msg, generate_engine_xml e = .error msg) := by
  have h1 : ∃ msg, generate_torque_curve e.horsepower e.min_rpm e.max_rpm
      e.turbocharged = .error msg := by
    unfold generate_torque_curve
    split_ifs with ha hb hc hd
    · exact ⟨_, rfl⟩
    · exact ⟨_, rfl⟩
    · exact ⟨_, rfl⟩
    · exact ⟨_, rfl⟩
    · rcases h with h | h | h
      · exact absurd h hc
      · exact absurd h ha
      · exact absurd h hb
  obtain ⟨msg, hmsg⟩ := h1
  refine ⟨⟨msg, hmsg⟩, ⟨msg, ?_⟩⟩
  unfold generate_engine_xml
  rw [hmsg]
  rfl

theorem invalid_input_no_xml_witness :
    ((2000 : ℝ) ≤ 3000 ∨ (100 : ℝ) ≤ 0 ∨ (3000 : ℝ) < 0) ∧
    (∃ msg, generate_torque_curve 100 3000 2000 false = .error msg) ∧
    (∃ msg, generate_engine_xml ⟨"E", 0, 100, 3000, 2000, 1.0, false⟩ =
      .error msg) :=
  ⟨Or.inl (by norm_num),
    invalid_input_no_xml ⟨"E", 0, 100, 3000, 2000, 1.0, false⟩
      (Or.inl (by norm_num))⟩

end FS25
namespace FS25

lemma generate_combined_fs25_xml_ok (e : EngineData) (t : TransmissionData)
    (hhp : 0 < e.horsepower) (hmin : 0 ≤ e.min_rpm) (hlt : e.min_rpm < e.max_rpm)
    (hnf : 0 < t.num_forward) (hnr : 0 ≤ t.num_reverse) (hts : 0 < t.top_speed) :
    generate_combined_fs25_xml e t = .ok {
      name := e.name ++ " - " ++ t.name
      hp := e.horsepower
      price := e.cost + t.cost
      torqueScaleAttr := e.fuel_usage_scale
      minRpm := e.min_rpm
      maxRpm := e.max_rpm
      maxForwardSpeed := (t.top_speed : ℝ)
      maxBackwardSpeed := 22
      torques := rescaleTorqueCurve ((List.range 10).map (fun i : ℕ =>
        ((e.min_rpm + (e.max_rpm - e.min_rpm) * ((i : ℝ) / 9.0)) / e.max_rpm,
         base_torque e.horsepower (peak_rpm e.min_rpm e.max_rpm) *
           torqueFactor e.turbocharged (peak_rpm e.min_rpm e.max_rpm) e.max_rpm
             (e.min_rpm + (e.max_rpm - e.min_rpm) * ((i : ℝ) / 9.0))))) e.max_rpm
      transmissionElem := some {
        autoGearChangeTime := if t.ttype.toLower = "automatic" then "1" else "0"
        gearChangeTime := "0.3"
        name := t.name
        backwardGears :=
          reverseRatios (forwardRatios t.ttype t.num_forward.toNat
            t.enable_low_gearing t.low_gear_boost) t.num_reverse.toNat
        forwardGears := forwardRatios t.ttype t.num_forward.toNat
          t.enable_low_gearing t.low_gear_boost } } := by
  unfold generate_combined_fs25_xml
  rw [generate_torque_curve_ok _ _ _ _ hhp hmin hlt,
    calculate_gear_ratios_ok _ _ _ _ _ _ hnf hnr hts]
  rfl

/-- C8: the standalone engine document hardcodes maxForwardSpeed 120 while
the combined document uses the transmission top speed. -/
theorem max_forward_speed_attrs (e : EngineData) (t : TransmissionData)
    (hhp : 0 < e.horsepower) (hmin : 0 ≤ e.min_rpm) (hlt : e.min_rpm < e.max_rpm)
    (hnf : 0 < t.num_forward) (hnr : 0 ≤ t.num_reverse) (hts : 0 < t.top_speed) :
    ∃ d1 d2, generate_engine_xml e = .ok d1 ∧
      generate_combined_fs25_xml e t = .ok d2 ∧
      d1.maxForwardSpeed = 120 ∧ d2.maxForwardSpeed = (t.top_speed : ℝ) :=
  ⟨_, _, generate_engine_xml_ok e hhp hmin hlt,
    generate_combined_fs25_xml_ok e t hhp hmin hlt hnf hnr hts, rfl, rfl⟩

theorem max_forward_speed_attrs_witness :
    (0 : ℝ) < 275 ∧ (0 : ℝ) ≤ 600 ∧ (600 : ℝ) < 3500 ∧
    (0 : ℤ) < 6 ∧ (0 : ℤ) ≤ 2 ∧ (0 : ℚ) < 40 ∧
    ∃ d1 d2,
      generate_engine_xml ⟨"E", 8500, 275, 600, 3500, 1.0, true⟩ = .ok d1 ∧
      generate_combined_fs25_xml ⟨"E", 8500, 275, 600, 3500, 1.0, true⟩
        ⟨"T", 4000, "Manual", 40, 6, 2, false, 25⟩ = .ok d2 ∧
      d1.maxForwardSpeed = 120 ∧ d2.maxForwardSpeed = ((40 : ℚ) : ℝ) :=
  ⟨by norm_num, by norm_num, by norm_num, by decide, by decide, by norm_num,
    max_forward_speed_attrs ⟨"E", 8500, 275, 600, 3500, 1.0, true⟩
      ⟨"T", 4000, "Manual", 40, 6, 2, false, 25⟩
      (by norm_num) (by norm_num) (by norm_num)
      (by decide) (by decide) (by norm_num)⟩

end FS25
